import Mathlib

/-!
Shallow embedding of `jormungandr-integration-tests/src/jormungandr/genesis/stake_pool.rs`.

The three helpers `create_new_stake_pool`, `delegate_stake` and `retire_stake_pool`
orchestrate external collaborators (the `jcli` wallet client and the node's REST API).
Those collaborators are modelled by an abstract environment `Env` of pure response
functions; each helper is embedded as a pure function returning the mutated account
handle, a trace of the external interactions it performs, the transaction it builds
(as the ordered list of builder steps), and an optional result that is `none` whenever
one of the helper's ledger-observation assertions would panic.
-/

namespace StakePool

/-- The linear fee schedule `LinearFees { constant, coefficient, certificate }`
from `configuration/genesis_model`. -/
structure LinearFees where
  constant : Nat
  coefficient : Nat
  certificate : Nat
deriving DecidableEq, Repr

/-- Modelled from the spec: the test-harness `Account` handle
(`common/data/address.rs`, not among the given sources) holds a private key,
a public key, an address and a monotonically increasing local transaction
counter that `confirm_transaction` advances. -/
structure Account where
  private_key : String
  public_key : String
  address : String
  tx_counter : Nat
deriving DecidableEq, Repr

/-- Modelled from the spec: `Account::confirm_transaction` advances the
account's local transaction counter by exactly one and touches nothing else. -/
def Account.confirm_transaction (a : Account) : Account :=
  { a with tx_counter := a.tx_counter + 1 }

/-- The two `chain_crypto` signature schemes instantiated by the source:
`Curve25519_2HashDH` (the VRF scheme) and `SumEd25519_12` (the KES scheme). -/
inductive Scheme
  | Curve25519_2HashDH
  | SumEd25519_12
deriving DecidableEq, Repr

/-- `file_utils::create_file_in_temp(name, content)`: a temp file is its
name together with its content. -/
structure TempFile where
  name : String
  content : String
deriving DecidableEq, Repr

def create_file_in_temp (name content : String) : TempFile :=
  ⟨name, content⟩

/-- A pool-id hash as parsed by `Hash::from_str`. -/
structure Hash where
  val : String
deriving DecidableEq, Repr

/-- The slice of `account_state` the source inspects:
`delegation().pools()` is a list of (pool-id hash, value) pairs. -/
structure AccountState where
  delegation_pools : List (Hash × Nat)
deriving DecidableEq, Repr

/-- One step of the `JCLITransactionWrapper` builder chain, recording the
arguments the source passes to each `jcli transaction` sub-command. -/
inductive TxStep
  | add_account (address : String) (value : Nat)
  | add_certificate (cert : String)
  | finalize_with_fee (address : String) (fees : LinearFees)
  | seal_witness (account : Account)
  | add_auth (key_file : TempFile)
deriving DecidableEq, Repr

/-- The transaction builder: the genesis block hash it was opened with and
the ordered list of builder steps applied so far. -/
structure JCLITransactionWrapper where
  genesis_block_hash : String
  steps : List TxStep
deriving DecidableEq, Repr

def new_transaction (genesis_block_hash : String) : JCLITransactionWrapper :=
  ⟨genesis_block_hash, []⟩

def JCLITransactionWrapper.assert_add_account (w : JCLITransactionWrapper)
    (address : String) (value : Nat) : JCLITransactionWrapper :=
  { w with steps := w.steps ++ [TxStep.add_account address value] }

def JCLITransactionWrapper.assert_add_certificate (w : JCLITransactionWrapper)
    (cert : String) : JCLITransactionWrapper :=
  { w with steps := w.steps ++ [TxStep.add_certificate cert] }

def JCLITransactionWrapper.assert_finalize_with_fee (w : JCLITransactionWrapper)
    (address : String) (fees : LinearFees) : JCLITransactionWrapper :=
  { w with steps := w.steps ++ [TxStep.finalize_with_fee address fees] }

def JCLITransactionWrapper.seal_with_witness_for_address (w : JCLITransactionWrapper)
    (account : Account) : JCLITransactionWrapper :=
  { w with steps := w.steps ++ [TxStep.seal_witness account] }

def JCLITransactionWrapper.assert_add_auth (w : JCLITransactionWrapper)
    (key_file : TempFile) : JCLITransactionWrapper :=
  { w with steps := w.steps ++ [TxStep.add_auth key_file] }

/-- `assert_to_message` serializes the built transaction; the message is
modelled by the builder state itself. -/
def JCLITransactionWrapper.assert_to_message (w : JCLITransactionWrapper) :
    JCLITransactionWrapper :=
  w

/-- Externally observable interactions a helper performs, in program order. -/
inductive Event
  | key_gen (scheme : Scheme) (ident : String)
  | new_registration (vrf_key kes_key : String)
      (start_validity management_threshold : Nat) (owner_key : String)
  | new_delegation (pool_id account_key : String)
  | new_retirement (pool_id : String)
  | confirm_tx
  | wait_in_block (included : Bool)
  | get_pool_id (file : TempFile) (result : String)
  | query_stake_pools (result : List String)
  | query_account_stats (address : String)
deriving DecidableEq, Repr

/-- The external collaborators (jcli key/certificate commands, node REST API)
as pure response functions. -/
structure Env where
  create_new_key_pair : Scheme → String
  rest_settings_fees : LinearFees
  new_stake_pool_registration : String → String → Nat → Nat → String → String
  new_stake_delegation : String → String → String
  new_stake_pool_retirement : String → String
  get_stake_pool_id : TempFile → String
  transaction_in_block : JCLITransactionWrapper → Bool
  account_stats : String → AccountState
  stake_pools : List String
  hash_from_str : String → Option Hash

/-- Outcome of running one helper: the account handle after the run, the
event trace, the transaction that was assembled, and the helper's result
(`none` when a ledger-observation assertion panics). -/
structure RunResult (α : Type) where
  account : Account
  events : List Event
  transaction : JCLITransactionWrapper
  result : Option α

/-- Embedding of `create_new_stake_pool` (stake_pool.rs lines 67-119).
Note: the source binds `kes` to a fresh `Curve25519_2HashDH` pair and `vrf`
to a fresh `SumEd25519_12` pair, then passes `vrf` first and `kes` second to
the registration certificate builder. -/
def create_new_stake_pool (env : Env) (account : Account)
    (genesis_block_hash : String) : RunResult String :=
  let kes_ident := env.create_new_key_pair Scheme.Curve25519_2HashDH
  let vrf_ident := env.create_new_key_pair Scheme.SumEd25519_12
  let owner_stake_key := create_file_in_temp "stake_key.private_key" account.private_key
  let fees := env.rest_settings_fees
  let fee_value := fees.certificate + fees.coefficient + fees.constant
  let stake_pool_certificate :=
    env.new_stake_pool_registration vrf_ident kes_ident 0 1 account.public_key
  let stake_pool_certificate_file :=
    create_file_in_temp "stake_pool.cert" stake_pool_certificate
  let transaction :=
    ((((((new_transaction genesis_block_hash).assert_add_account
      account.address fee_value).assert_add_certificate
      stake_pool_certificate).assert_finalize_with_fee
      account.address fees).seal_with_witness_for_address
      account).assert_add_auth owner_stake_key).assert_to_message
  let included := env.transaction_in_block transaction
  let stake_pool_id := env.get_stake_pool_id stake_pool_certificate_file
  let ev0 := [Event.key_gen Scheme.Curve25519_2HashDH kes_ident,
              Event.key_gen Scheme.SumEd25519_12 vrf_ident,
              Event.new_registration vrf_ident kes_ident 0 1 account.public_key,
              Event.confirm_tx,
              Event.wait_in_block included]
  { account := account.confirm_transaction
    events :=
      if included then
        ev0 ++ [Event.get_pool_id stake_pool_certificate_file stake_pool_id,
                Event.query_stake_pools env.stake_pools]
      else ev0
    transaction := transaction
    result :=
      if included then
        if stake_pool_id ∈ env.stake_pools then some stake_pool_id else none
      else none }

/-- Embedding of `delegate_stake` (stake_pool.rs lines 121-165). -/
def delegate_stake (env : Env) (account : Account) (stake_pool_id : String)
    (genesis_block_hash : String) : RunResult Unit :=
  let owner_stake_key := create_file_in_temp "stake_key.private_key" account.private_key
  let stake_pool_delegation :=
    env.new_stake_delegation stake_pool_id account.public_key
  let fees := env.rest_settings_fees
  let fee_value := fees.certificate + fees.coefficient + fees.constant
  let transaction :=
    ((((((new_transaction genesis_block_hash).assert_add_account
      account.address fee_value).assert_add_certificate
      stake_pool_delegation).assert_finalize_with_fee
      account.address fees).seal_with_witness_for_address
      account).assert_add_auth owner_stake_key).assert_to_message
  let included := env.transaction_in_block transaction
  let ev0 := [Event.new_delegation stake_pool_id account.public_key,
              Event.confirm_tx,
              Event.wait_in_block included]
  { account := account.confirm_transaction
    events :=
      if included then ev0 ++ [Event.query_account_stats account.address] else ev0
    transaction := transaction
    result :=
      if included then
        match env.hash_from_str stake_pool_id with
        | none => none
        | some h =>
          if (env.account_stats account.address).delegation_pools.any
              (fun p => decide (p.1 = h)) then some () else none
      else none }

/-- Embedding of `retire_stake_pool` (stake_pool.rs lines 167-218). -/
def retire_stake_pool (env : Env) (stake_pool_id : String) (account : Account)
    (genesis_block_hash : String) : RunResult Unit :=
  let owner_private_key := create_file_in_temp "stake_key.private_key" account.private_key
  let retirement_cert := env.new_stake_pool_retirement stake_pool_id
  let fees := env.rest_settings_fees
  let fee_value := fees.certificate + fees.coefficient + fees.constant
  let transaction :=
    ((((((new_transaction genesis_block_hash).assert_add_account
      account.address fee_value).assert_add_certificate
      retirement_cert).assert_finalize_with_fee
      account.address fees).seal_with_witness_for_address
      account).assert_add_auth owner_private_key).assert_to_message
  let included := env.transaction_in_block transaction
  let ev0 := [Event.new_retirement stake_pool_id,
              Event.confirm_tx,
              Event.wait_in_block included]
  { account := account.confirm_transaction
    events :=
      if included then
        match env.hash_from_str stake_pool_id with
        | none => ev0 ++ [Event.query_account_stats account.address]
        | some h =>
          if (env.account_stats account.address).delegation_pools.any
              (fun p => decide (p.1 = h)) then
            ev0 ++ [Event.query_account_stats account.address,
                    Event.query_stake_pools env.stake_pools]
          else ev0 ++ [Event.query_account_stats account.address]
      else ev0
    transaction := transaction
    result :=
      if included then
        match env.hash_from_str stake_pool_id with
        | none => none
        | some h =>
          if (env.account_stats account.address).delegation_pools.any
              (fun p => decide (p.1 = h)) then
            if stake_pool_id ∈ env.stake_pools then none else some ()
          else none
      else none }

/-- Index of the first element matched by `p` (length of the list if none is). -/
def first_idx {α : Type} (p : α → Bool) : List α → Nat
  | [] => 0
  | a :: rest => if p a then 0 else first_idx p rest + 1

/-- How many elements `p` matches. -/
def count_matching {α : Type} (p : α → Bool) : List α → Nat
  | [] => 0
  | a :: rest => (if p a then 1 else 0) + count_matching p rest

/-- Whether some element matches `p`. -/
def occurs {α : Type} (p : α → Bool) : List α → Bool
  | [] => false
  | a :: rest => p a || occurs p rest

def is_confirm : Event → Bool
  | Event.confirm_tx => true
  | _ => false

def is_wait : Event → Bool
  | Event.wait_in_block _ => true
  | _ => false

/-- Post-submission ledger-state observations. -/
def is_query : Event → Bool
  | Event.get_pool_id _ _ => true
  | Event.query_stake_pools _ => true
  | Event.query_account_stats _ => true
  | _ => false

def is_finalize_step : TxStep → Bool
  | TxStep.finalize_with_fee _ _ => true
  | _ => false

def is_seal_step : TxStep → Bool
  | TxStep.seal_witness _ => true
  | _ => false

/-- The value of the first `add_account` input of a transaction: the amount
the helper declares to cover the fee. -/
def fee_value_declared : List TxStep → Option Nat
  | [] => none
  | TxStep.add_account _ v :: _ => some v
  | _ :: rest => fee_value_declared rest

/-- A concrete account for evaluating the helpers. -/
def acc1 : Account :=
  ⟨"priv1", "pub1", "addr1", 0⟩

/-- A concrete environment in which all three helpers succeed: the fresh pool
gets id "pool1" (listed active), while pool id "pool2" is delegated to in the
account state and absent from the active listing. -/
def env1 : Env where
  create_new_key_pair := fun s =>
    match s with
    | Scheme.Curve25519_2HashDH => "curve_key"
    | Scheme.SumEd25519_12 => "sum_key"
  rest_settings_fees := ⟨100, 100, 200⟩
  new_stake_pool_registration := fun v k _ _ o =>
    "reg:" ++ v ++ ":" ++ k ++ ":" ++ o
  new_stake_delegation := fun p a => "del:" ++ p ++ ":" ++ a
  new_stake_pool_retirement := fun p => "ret:" ++ p
  get_stake_pool_id := fun _ => "pool1"
  transaction_in_block := fun _ => true
  account_stats := fun _ => ⟨[(⟨"pool2"⟩, 1)]⟩
  stake_pools := ["pool1"]
  hash_from_str := fun s => some ⟨s⟩

/-- C1: in each of the three helpers, the fee value declared for the
certificate-bearing transaction equals exactly constant + coefficient +
certificate of the linear fee schedule fetched from the node's REST settings,
for every environment, account, pool id and genesis hash — hence independent
of the number of inputs and outputs. -/
theorem declared_fee_is_linear_sum (env : Env) (acc : Account) (g pid : String) :
    fee_value_declared (create_new_stake_pool env acc g).transaction.steps
        = some (env.rest_settings_fees.constant + env.rest_settings_fees.coefficient
            + env.rest_settings_fees.certificate)
    ∧ fee_value_declared (delegate_stake env acc pid g).transaction.steps
        = some (env.rest_settings_fees.constant + env.rest_settings_fees.coefficient
            + env.rest_settings_fees.certificate)
    ∧ fee_value_declared (retire_stake_pool env pid acc g).transaction.steps
        = some (env.rest_settings_fees.constant + env.rest_settings_fees.coefficient
            + env.rest_settings_fees.certificate) := by
  refine ⟨?_, ?_, ?_⟩ <;>
    simp [create_new_stake_pool, delegate_stake, retire_stake_pool,
      fee_value_declared, new_transaction,
      JCLITransactionWrapper.assert_add_account,
      JCLITransactionWrapper.assert_add_certificate,
      JCLITransactionWrapper.assert_finalize_with_fee,
      JCLITransactionWrapper.seal_with_witness_for_address,
      JCLITransactionWrapper.assert_add_auth,
      JCLITransactionWrapper.assert_to_message] <;>
    omega

/-- C7: in every transaction assembled by the three helpers, the witness-sealing
step occurs, and the fee-inclusive finalization step occurs strictly before it
in the builder chain: the witness is computed only over the finalized body. -/
theorem witness_sealed_after_finalize (env : Env) (acc : Account) (g pid : String) :
    (occurs is_seal_step (create_new_stake_pool env acc g).transaction.steps = true
      ∧ first_idx is_finalize_step (create_new_stake_pool env acc g).transaction.steps
          < first_idx is_seal_step (create_new_stake_pool env acc g).transaction.steps)
    ∧ (occurs is_seal_step (delegate_stake env acc pid g).transaction.steps = true
      ∧ first_idx is_finalize_step (delegate_stake env acc pid g).transaction.steps
          < first_idx is_seal_step (delegate_stake env acc pid g).transaction.steps)
    ∧ (occurs is_seal_step (retire_stake_pool env pid acc g).transaction.steps = true
      ∧ first_idx is_finalize_step (retire_stake_pool env pid acc g).transaction.steps
          < first_idx is_seal_step (retire_stake_pool env pid acc g).transaction.steps) :=
  ⟨⟨rfl, Nat.le.refl⟩, ⟨rfl, Nat.le.refl⟩, ⟨rfl, Nat.le.refl⟩⟩

/-- C8: each of the three assembled transactions carries, after the account
witness step, an auth step whose key file holds the pool owner's private key
(the spending account's private key), over the same finalized step list. -/
theorem auth_appended_after_witness (env : Env) (acc : Account) (g pid : String) :
    (∃ (i j : Nat) (f : TempFile), i < j
      ∧ (create_new_stake_pool env acc g).transaction.steps[i]?
          = some (TxStep.seal_witness acc)
      ∧ (create_new_stake_pool env acc g).transaction.steps[j]?
          = some (TxStep.add_auth f)
      ∧ f.content = acc.private_key)
    ∧ (∃ (i j : Nat) (f : TempFile), i < j
      ∧ (delegate_stake env acc pid g).transaction.steps[i]?
          = some (TxStep.seal_witness acc)
      ∧ (delegate_stake env acc pid g).transaction.steps[j]?
          = some (TxStep.add_auth f)
      ∧ f.content = acc.private_key)
    ∧ (∃ (i j : Nat) (f : TempFile), i < j
      ∧ (retire_stake_pool env pid acc g).transaction.steps[i]?
          = some (TxStep.seal_witness acc)
      ∧ (retire_stake_pool env pid acc g).transaction.steps[j]?
          = some (TxStep.add_auth f)
      ∧ f.content = acc.private_key) :=
  ⟨⟨3, 4, create_file_in_temp "stake_key.private_key" acc.private_key,
      Nat.le.refl, rfl, rfl, rfl⟩,
   ⟨3, 4, create_file_in_temp "stake_key.private_key" acc.private_key,
      Nat.le.refl, rfl, rfl, rfl⟩,
   ⟨3, 4, create_file_in_temp "stake_key.private_key" acc.private_key,
      Nat.le.refl, rfl, rfl, rfl⟩⟩

/-- C10: the pool owner and the fee payer coincide: the registration
certificate's owner public key is the spending account's public key, and in
all three helpers the auth step's key file contains that same account's
private key. -/
theorem pool_owner_is_fee_payer (env : Env) (acc : Account) (g pid : String) :
    (create_new_stake_pool env acc g).transaction.steps[1]?
        = some (TxStep.add_certificate (env.new_stake_pool_registration
            (env.create_new_key_pair Scheme.SumEd25519_12)
            (env.create_new_key_pair Scheme.Curve25519_2HashDH)
            0 1 acc.public_key))
    ∧ (create_new_stake_pool env acc g).transaction.steps[4]?
        = some (TxStep.add_auth ⟨"stake_key.private_key", acc.private_key⟩)
    ∧ (delegate_stake env acc pid g).transaction.steps[4]?
        = some (TxStep.add_auth ⟨"stake_key.private_key", acc.private_key⟩)
    ∧ (retire_stake_pool env pid acc g).transaction.steps[4]?
        = some (TxStep.add_auth ⟨"stake_key.private_key", acc.private_key⟩) :=
  ⟨rfl, rfl, rfl, rfl⟩

/-- C3: the key pair passed as the registration certificate's first (VRF) key
argument is generated under `SumEd25519_12` (the KES scheme), and the one
passed as the second (KES) argument is generated under `Curve25519_2HashDH`
(the VRF scheme): the source binds the local names `kes` and `vrf` to key
pairs of the respectively opposite schemes and passes them accordingly. -/
theorem registration_vrf_argument_uses_kes_scheme (env : Env) (acc : Account)
    (g : String) :
    (create_new_stake_pool env acc g).events[1]?
        = some (Event.key_gen Scheme.SumEd25519_12
            (env.create_new_key_pair Scheme.SumEd25519_12))
    ∧ (create_new_stake_pool env acc g).events[2]?
        = some (Event.new_registration
            (env.create_new_key_pair Scheme.SumEd25519_12)
            (env.create_new_key_pair Scheme.Curve25519_2HashDH)
            0 1 acc.public_key) := by
  refine ⟨?_, ?_⟩ <;>
    · simp only [create_new_stake_pool]
      split <;> rfl

/-- C4: each helper advances the spending account's local transaction counter
by exactly one (a single confirm step in the trace), modifies no other field
of the account handle, and the confirm happens strictly before the
wait-for-inclusion observation — for every environment, in particular those
where the transaction is never observed included. -/
theorem confirm_advances_counter_once (env : Env) (acc : Account) (g pid : String) :
    ((create_new_stake_pool env acc g).account
          = { acc with tx_counter := acc.tx_counter + 1 }
      ∧ count_matching is_confirm (create_new_stake_pool env acc g).events = 1
      ∧ first_idx is_confirm (create_new_stake_pool env acc g).events
          < first_idx is_wait (create_new_stake_pool env acc g).events)
    ∧ ((delegate_stake env acc pid g).account
          = { acc with tx_counter := acc.tx_counter + 1 }
      ∧ count_matching is_confirm (delegate_stake env acc pid g).events = 1
      ∧ first_idx is_confirm (delegate_stake env acc pid g).events
          < first_idx is_wait (delegate_stake env acc pid g).events)
    ∧ ((retire_stake_pool env pid acc g).account
          = { acc with tx_counter := acc.tx_counter + 1 }
      ∧ count_matching is_confirm (retire_stake_pool env pid acc g).events = 1
      ∧ first_idx is_confirm (retire_stake_pool env pid acc g).events
          < first_idx is_wait (retire_stake_pool env pid acc g).events) := by
  refine ⟨⟨rfl, ?_, ?_⟩, ⟨rfl, ?_, ?_⟩, ⟨rfl, ?_, ?_⟩⟩ <;>
    · simp only [create_new_stake_pool, delegate_stake, retire_stake_pool]
      split <;> (try split) <;> (try split) <;>
        simp [count_matching, first_idx, is_confirm, is_wait]

/-- C9: in each helper's trace the wait-for-inclusion observation occurs
strictly before any post-submission ledger-state query, and the helper yields
a result only when the submitted transaction was observed included. -/
theorem wait_precedes_queries_and_return (env : Env) (acc : Account) (g pid : String) :
    (first_idx is_wait (create_new_stake_pool env acc g).events
        < first_idx is_query (create_new_stake_pool env acc g).events
      ∧ ((create_new_stake_pool env acc g).result.isSome = true
          → env.transaction_in_block (create_new_stake_pool env acc g).transaction
              = true))
    ∧ (first_idx is_wait (delegate_stake env acc pid g).events
        < first_idx is_query (delegate_stake env acc pid g).events
      ∧ ((delegate_stake env acc pid g).result.isSome = true
          → env.transaction_in_block (delegate_stake env acc pid g).transaction
              = true))
    ∧ (first_idx is_wait (retire_stake_pool env pid acc g).events
        < first_idx is_query (retire_stake_pool env pid acc g).events
      ∧ ((retire_stake_pool env pid acc g).result.isSome = true
          → env.transaction_in_block (retire_stake_pool env pid acc g).transaction
              = true)) := by
  refine ⟨⟨?_, ?_⟩, ⟨?_, ?_⟩, ⟨?_, ?_⟩⟩
  · simp only [create_new_stake_pool]
    split <;> simp [first_idx, is_wait, is_query]
  · intro h
    simp only [create_new_stake_pool] at h ⊢
    split at h
    · assumption
    · simp at h
  · simp only [delegate_stake]
    split <;> simp [first_idx, is_wait, is_query]
  · intro h
    simp only [delegate_stake] at h ⊢
    split at h
    · assumption
    · simp at h
  · simp only [retire_stake_pool]
    split <;> (try split) <;> (try split) <;> simp [first_idx, is_wait, is_query]
  · intro h
    simp only [retire_stake_pool] at h ⊢
    split at h
    · assumption
    · simp at h

/-- C5: create_new_stake_pool builds the registration with start_validity 0
and management_threshold 1, and when it returns a pool id, that id is the one
derived from the registration certificate file itself and the helper has
checked it against the node's list of active stake pools. -/
theorem create_registers_and_lists_pool (env : Env) (acc : Account) (g pid : String)
    (h : (create_new_stake_pool env acc g).result = some pid) :
    (∃ (v k o : String), (create_new_stake_pool env acc g).events[2]?
        = some (Event.new_registration v k 0 1 o))
    ∧ pid = env.get_stake_pool_id (create_file_in_temp "stake_pool.cert"
        (env.new_stake_pool_registration
          (env.create_new_key_pair Scheme.SumEd25519_12)
          (env.create_new_key_pair Scheme.Curve25519_2HashDH) 0 1 acc.public_key))
    ∧ pid ∈ env.stake_pools := by
  refine ⟨⟨env.create_new_key_pair Scheme.SumEd25519_12,
           env.create_new_key_pair Scheme.Curve25519_2HashDH,
           acc.public_key, ?_⟩, ?_, ?_⟩
  · simp only [create_new_stake_pool]
    split <;> rfl
  · simp only [create_new_stake_pool] at h
    split at h
    · split at h
      · exact (Option.some.inj h).symm
      · exact Option.noConfusion h
    · exact Option.noConfusion h
  · simp only [create_new_stake_pool] at h
    split at h
    · split at h
      · rename_i hmem
        exact (Option.some.inj h) ▸ hmem
      · exact Option.noConfusion h
    · exact Option.noConfusion h

/-- C6: when delegate_stake completes, the queried account state's delegation
pools contain the hash of the delegated pool id. -/
theorem delegate_updates_delegation (env : Env) (acc : Account) (pid g : String)
    (h : (delegate_stake env acc pid g).result = some ()) :
    ∃ hh : Hash, env.hash_from_str pid = some hh
      ∧ (env.account_stats acc.address).delegation_pools.any
          (fun p => decide (p.1 = hh)) = true := by
  simp only [delegate_stake] at h
  split at h
  · split at h
    · exact Option.noConfusion h
    · rename_i hh heq
      split at h
      · rename_i hany
        exact ⟨hh, heq, hany⟩
      · exact Option.noConfusion h
  · exact Option.noConfusion h

/-- C2: when retire_stake_pool completes, the pool id is absent from the
node's list of active stake pools while the account state's delegation pools
still contain that pool id's hash: retirement does not clear the delegation
record. -/
theorem retire_delists_but_keeps_delegation (env : Env) (acc : Account) (pid g : String)
    (h : (retire_stake_pool env pid acc g).result = some ()) :
    pid ∉ env.stake_pools
    ∧ ∃ hh : Hash, env.hash_from_str pid = some hh
        ∧ (env.account_stats acc.address).delegation_pools.any
            (fun p => decide (p.1 = hh)) = true := by
  simp only [retire_stake_pool] at h
  split at h
  · split at h
    · exact Option.noConfusion h
    · rename_i hh heq
      split at h
      · rename_i hany
        split at h
        · exact Option.noConfusion h
        · rename_i hmem
          exact ⟨hmem, hh, heq, hany⟩
      · exact Option.noConfusion h
  · exact Option.noConfusion h

/-- Witness for C9: at the concrete environment `env1` all three helpers
succeed, and the inclusion implications are discharged. -/
theorem wait_precedes_queries_and_return_witness :
    (create_new_stake_pool env1 acc1 "g0").result.isSome = true
    ∧ env1.transaction_in_block (create_new_stake_pool env1 acc1 "g0").transaction
        = true
    ∧ (delegate_stake env1 acc1 "pool2" "g0").result.isSome = true
    ∧ env1.transaction_in_block (delegate_stake env1 acc1 "pool2" "g0").transaction
        = true
    ∧ (retire_stake_pool env1 "pool2" acc1 "g0").result.isSome = true
    ∧ env1.transaction_in_block (retire_stake_pool env1 "pool2" acc1 "g0").transaction
        = true :=
  ⟨rfl,
   (wait_precedes_queries_and_return env1 acc1 "g0" "pool2").1.2 rfl,
   rfl,
   (wait_precedes_queries_and_return env1 acc1 "g0" "pool2").2.1.2 rfl,
   rfl,
   (wait_precedes_queries_and_return env1 acc1 "g0" "pool2").2.2.2 rfl⟩

/-- Witness for C5: at `env1`, the fresh pool gets id "pool1", which is listed
among the active pools. -/
theorem create_registers_and_lists_pool_witness :
    (create_new_stake_pool env1 acc1 "g1").result = some "pool1"
    ∧ ((∃ (v k o : String), (create_new_stake_pool env1 acc1 "g1").events[2]?
          = some (Event.new_registration v k 0 1 o))
      ∧ "pool1" = env1.get_stake_pool_id (create_file_in_temp "stake_pool.cert"
          (env1.new_stake_pool_registration
            (env1.create_new_key_pair Scheme.SumEd25519_12)
            (env1.create_new_key_pair Scheme.Curve25519_2HashDH) 0 1 acc1.public_key))
      ∧ "pool1" ∈ env1.stake_pools) :=
  ⟨rfl, create_registers_and_lists_pool env1 acc1 "g1" "pool1" rfl⟩

/-- Witness for C6: at `env1`, delegating to "pool2" succeeds and the account
state reports the delegation. -/
theorem delegate_updates_delegation_witness :
    (delegate_stake env1 acc1 "pool2" "g2").result = some ()
    ∧ ∃ hh : Hash, env1.hash_from_str "pool2" = some hh
        ∧ (env1.account_stats acc1.address).delegation_pools.any
            (fun p => decide (p.1 = hh)) = true :=
  ⟨rfl, delegate_updates_delegation env1 acc1 "pool2" "g2" rfl⟩

/-- Witness for C2: at `env1`, retiring "pool2" succeeds, "pool2" is not
listed active, and the delegation record still names it. -/
theorem retire_delists_but_keeps_delegation_witness :
    (retire_stake_pool env1 "pool2" acc1 "g3").result = some ()
    ∧ ("pool2" ∉ env1.stake_pools
      ∧ ∃ hh : Hash, env1.hash_from_str "pool2" = some hh
          ∧ (env1.account_stats acc1.address).delegation_pools.any
              (fun p => decide (p.1 = hh)) = true) :=
  ⟨rfl, retire_delists_but_keeps_delegation env1 acc1 "pool2" "g3" rfl⟩

end StakePool
